import Mathlib

/-!
Verification of the Matrix-SMT visual debugger core: the replay playback
cursor (`ReplayPlayer`), the rigid-transform builders (`MatrixTransform`
in `Libraries/Transform.py`), and the per-frame display update with its
bounded vector-slot pool (`MainWindow.update_display` in `main.py`).

The Python classes are embedded shallowly: machine floats become real
numbers, Python `dict`/BSON field access becomes `Option` projections
(`KeyError` is an `Except.error`), Python list indexing becomes a total
function returning `Except` (`IndexError` on out-of-range), and the
mutable object graph becomes explicit state passing.
-/

open scoped Classical

/-- State of `ReplayPlayer` (`Libraries/ReplayPlayer.py`).  The player never
inspects the contents of a frame or an object descriptor, so the element
types are parameters.  `current_frame` and `direction` are Python ints. -/
structure ReplayPlayer (α β : Type) where
  frames : List α
  objects : List β
  current_frame : ℤ
  number_of_frames : ℕ
  is_playing : Bool
  speed : ℚ
  direction : ℤ

/-- A parsed replay document as consumed by `load_replay`: the BSON
top-level dict, whose `frames` and `objects` keys may be absent
(`data.get("frames", [])` / `data.get("objects", [])`). -/
structure ReplayDoc (α β : Type) where
  frames : Option (List α)
  objects : Option (List β)

/-- `ReplayPlayer.load_replay`: installs the document's frames and objects
(defaulting absent keys to the empty list), resets `current_frame` to 0 and
recomputes `number_of_frames`.  No other field is assigned. -/
def load_replay (s : ReplayPlayer α β) (doc : ReplayDoc α β) : ReplayPlayer α β :=
  { s with
    frames := doc.frames.getD []
    objects := doc.objects.getD []
    current_frame := 0
    number_of_frames := (doc.frames.getD []).length }

/-- Python list indexing `l[i]` for an `int` index: in-range nonnegative
indices and negative indices from `-len l` read an element, anything else
raises `IndexError`. -/
def pyIndex (l : List α) (i : ℤ) : Except String α :=
  if h : 0 ≤ i ∧ i < (l.length : ℤ) then
    Except.ok (l.get ⟨i.toNat, by omega⟩)
  else if h2 : -(l.length : ℤ) ≤ i ∧ i < 0 then
    Except.ok (l.get ⟨(i + l.length).toNat, by omega⟩)
  else
    Except.error "IndexError"

/-- `ReplayPlayer.get_current_frame_data`: `None` when the frame list is
empty, otherwise the Python indexing `self.frames[self.current_frame]`
(which can raise `IndexError` when `current_frame` is out of range). -/
def get_current_frame_data (s : ReplayPlayer α β) : Except String (Option α) :=
  if s.frames.isEmpty then Except.ok none
  else (pyIndex s.frames s.current_frame).map some

/-- `ReplayPlayer.step`: no-op on an empty frame list, otherwise advance
`current_frame` by `direction` modulo the frame count (`max_frame + 1`).
Python `%` with a positive right operand is `Int.emod`. -/
def step (s : ReplayPlayer α β) : ReplayPlayer α β :=
  if s.frames.isEmpty then s
  else
    { s with current_frame :=
        (s.current_frame + s.direction) % (((s.frames.length - 1 : ℕ) : ℤ) + 1) }

/-- `MainWindow.seek_animation` effect on the player: assigns
`current_frame` directly from the slider value, with no bounds check. -/
def seek_animation (s : ReplayPlayer α β) (value : ℤ) : ReplayPlayer α β :=
  { s with current_frame := value }

/-- The cursor invariant claimed by the spec: `current_frame` is a valid
index, or the document is empty. -/
def validCursor (s : ReplayPlayer α β) : Prop :=
  s.frames = [] ∨ (0 ≤ s.current_frame ∧ s.current_frame < (s.frames.length : ℤ))

lemma step_of_nonempty (s : ReplayPlayer α β) (h : s.frames ≠ []) :
    step s = { s with current_frame :=
      (s.current_frame + s.direction) % (s.frames.length : ℤ) } := by
  have hne : ¬ s.frames.isEmpty := by
    simpa [List.isEmpty_iff] using h
  have hlen : 0 < s.frames.length := List.length_pos.mpr h
  unfold step
  rw [if_neg hne]
  have hm : (((s.frames.length - 1 : ℕ) : ℤ) + 1) = (s.frames.length : ℤ) := by omega
  rw [hm]

lemma step_frames (s : ReplayPlayer α β) : (step s).frames = s.frames := by
  unfold step
  split <;> rfl

lemma step_direction (s : ReplayPlayer α β) : (step s).direction = s.direction := by
  unfold step
  split <;> rfl

lemma step_iterate_forward (n : ℕ) (s : ReplayPlayer α β)
    (hdir : s.direction = 1) (hne : s.frames ≠ [])
    (h0 : 0 ≤ s.current_frame) (h1 : s.current_frame < (s.frames.length : ℤ)) :
    (step^[n] s).current_frame = (s.current_frame + n) % (s.frames.length : ℤ) ∧
    (step^[n] s).frames = s.frames ∧ (step^[n] s).direction = 1 := by
  induction n with
  | zero =>
    refine ⟨?_, rfl, hdir⟩
    simp only [Function.iterate_zero, id_eq, Nat.cast_zero, add_zero]
    exact (Int.emod_eq_of_lt h0 h1).symm
  | succ n ih =>
    obtain ⟨hcf, hfr, hd⟩ := ih
    rw [Function.iterate_succ_apply']
    have hne2 : (step^[n] s).frames ≠ [] := by rw [hfr]; exact hne
    rw [step_of_nonempty _ hne2]
    refine ⟨?_, hfr, hd⟩
    simp only [hcf, hfr, hd]
    have hL : (0 : ℤ) < (s.frames.length : ℤ) := by
      exact_mod_cast List.length_pos.mpr hne
    have : ((s.current_frame + n) % (s.frames.length : ℤ) + 1) % (s.frames.length : ℤ)
        = ((s.current_frame + n) + 1) % (s.frames.length : ℤ) := by
      conv_lhs => rw [Int.add_emod]
      conv_rhs => rw [Int.add_emod]
      rw [Int.emod_emod_of_dvd _ dvd_rfl]
    rw [this]
    push_cast
    ring_nf

/-- C1: `step` is a no-op on an empty frame list; otherwise it sets
`current_frame` to `(current_frame + direction) mod frame_count`, with the
result always in range; stepping forward `F` times from a valid frame `k`
returns to `k`, and a single backward step from frame 0 lands on `F - 1`. -/
theorem claim_C1_step_wraparound :
    (∀ (α β : Type) (s : ReplayPlayer α β), s.frames = [] → step s = s) ∧
    (∀ (α β : Type) (s : ReplayPlayer α β), s.frames ≠ [] →
      (step s).current_frame = (s.current_frame + s.direction) % (s.frames.length : ℤ) ∧
      0 ≤ (step s).current_frame ∧ (step s).current_frame < (s.frames.length : ℤ)) ∧
    (∀ (α β : Type) (s : ReplayPlayer α β) (k : ℤ), s.direction = 1 →
      s.current_frame = k → 0 ≤ k → k < (s.frames.length : ℤ) →
      (step^[s.frames.length] s).current_frame = k) ∧
    (∀ (α β : Type) (s : ReplayPlayer α β), s.direction = -1 → s.frames ≠ [] →
      s.current_frame = 0 →
      (step s).current_frame = (s.frames.length : ℤ) - 1) := by
  refine ⟨?_, ?_, ?_, ?_⟩
  · intro α β s h
    unfold step
    rw [if_pos (by simpa [List.isEmpty_iff] using h)]
  · intro α β s h
    have hL : (0 : ℤ) < (s.frames.length : ℤ) := by
      exact_mod_cast List.length_pos.mpr h
    rw [step_of_nonempty _ h]
    exact ⟨rfl, Int.emod_nonneg _ (by omega), Int.emod_lt_of_pos _ hL⟩
  · intro α β s k hdir hcf h0 h1
    subst hcf
    have hne : s.frames ≠ [] := by
      intro hcontra
      rw [hcontra] at h1
      simp at h1
      omega
    obtain ⟨hcf, -, -⟩ := step_iterate_forward s.frames.length s hdir hne h0 h1
    rw [hcf]
    have : (s.current_frame + (s.frames.length : ℤ)) % (s.frames.length : ℤ)
        = s.current_frame % (s.frames.length : ℤ) := by
      have h2 := Int.add_mul_emod_self_left (a := s.current_frame)
        (b := (s.frames.length : ℤ)) (c := 1)
      rw [mul_one] at h2
      exact h2
    rw [this, Int.emod_eq_of_lt h0 h1]
  · intro α β s hdir hne hcf
    have hL : (0 : ℤ) < (s.frames.length : ℤ) := by
      exact_mod_cast List.length_pos.mpr hne
    rw [step_of_nonempty _ hne, hcf, hdir]
    show ((0 : ℤ) + -1) % (s.frames.length : ℤ) = (s.frames.length : ℤ) - 1
    have h1 : (0 + -1 : ℤ) = ((s.frames.length : ℤ) - 1) + (s.frames.length : ℤ) * (-1) := by
      ring
    rw [h1, Int.add_mul_emod_self_left, Int.emod_eq_of_lt (by omega) (by omega)]

theorem claim_C1_step_wraparound_witness :
    (step^[3] (⟨[10, 20, 30], [], 1, 3, false, 1, 1⟩ : ReplayPlayer ℕ ℕ)).current_frame = 1 ∧
    (step (⟨[10, 20, 30], [], 0, 3, false, 1, -1⟩ : ReplayPlayer ℕ ℕ)).current_frame = 3 - 1 := by
  constructor
  · exact claim_C1_step_wraparound.2.2.1 ℕ ℕ ⟨[10, 20, 30], [], 1, 3, false, 1, 1⟩ 1
      rfl rfl (by decide) (by decide)
  · exact claim_C1_step_wraparound.2.2.2 ℕ ℕ ⟨[10, 20, 30], [], 0, 3, false, 1, -1⟩
      rfl (by decide) rfl

/-- C4 counterexample: loading a document does not reset `direction` or
`is_playing`; a player that was reversed and playing stays so. -/
theorem claim_C4_load_reset_cex :
    (load_replay (⟨[], [], 7, 0, true, 1, -1⟩ : ReplayPlayer ℕ ℕ)
        ⟨some [5], some []⟩).direction = -1 ∧
    (load_replay (⟨[], [], 7, 0, true, 1, -1⟩ : ReplayPlayer ℕ ℕ)
        ⟨some [5], some []⟩).is_playing = true ∧
    (-1 : ℤ) ≠ 1 ∧ true ≠ false := by
  refine ⟨rfl, rfl, by decide, by decide⟩

/-- C4 (amended): loading a document (including one with an empty or absent
frames sequence) installs its frames and objects, resets `current_frame`
to 0 and recomputes `number_of_frames`; `direction`, `is_playing` and
`speed` keep their previous values. -/
theorem claim_C4_load_reset_corrected :
    ∀ (α β : Type) (s : ReplayPlayer α β) (doc : ReplayDoc α β),
      (load_replay s doc).current_frame = 0 ∧
      (load_replay s doc).frames = doc.frames.getD [] ∧
      (load_replay s doc).objects = doc.objects.getD [] ∧
      (load_replay s doc).number_of_frames = (doc.frames.getD []).length ∧
      (load_replay s doc).direction = s.direction ∧
      (load_replay s doc).is_playing = s.is_playing ∧
      (load_replay s doc).speed = s.speed := by
  intro α β s doc
  exact ⟨rfl, rfl, rfl, rfl, rfl, rfl, rfl⟩

/-- C8 counterexample: seeking to 5 in a one-frame document is neither a
no-op nor a clamp — the cursor lands out of range and the next frame
access raises `IndexError`. -/
theorem claim_C8_seek_cex :
    (seek_animation (⟨[42], [], 0, 1, false, 1, 1⟩ : ReplayPlayer ℕ ℕ) 5).current_frame = 5 ∧
    (seek_animation (⟨[42], [], 0, 1, false, 1, 1⟩ : ReplayPlayer ℕ ℕ) 5).frames ≠ [] ∧
    ¬ ((5 : ℤ) < ((seek_animation (⟨[42], [], 0, 1, false, 1, 1⟩ : ReplayPlayer ℕ ℕ) 5).frames.length : ℤ)) ∧
    get_current_frame_data (seek_animation (⟨[42], [], 0, 1, false, 1, 1⟩ : ReplayPlayer ℕ ℕ) 5)
      = Except.error "IndexError" := by
  refine ⟨rfl, by decide, by decide, rfl⟩

/-- C8 (amended): `seek_animation` assigns `current_frame` directly with no
bounds check (so an out-of-range seek leaves the cursor invalid); the
validity invariant "current_frame is a valid index or the document is
empty" is established by every load, preserved by every step, and under it
the frame access of `get_current_frame_data` cannot raise. -/
theorem claim_C8_seek_corrected :
    (∀ (α β : Type) (s : ReplayPlayer α β) (v : ℤ),
      (seek_animation s v).current_frame = v ∧ (seek_animation s v).frames = s.frames) ∧
    (∀ (α β : Type) (s : ReplayPlayer α β) (doc : ReplayDoc α β),
      validCursor (load_replay s doc)) ∧
    (∀ (α β : Type) (s : ReplayPlayer α β), validCursor (step s)) ∧
    (∀ (α β : Type) (s : ReplayPlayer α β), validCursor s →
      ∃ r, get_current_frame_data s = Except.ok r) := by
  refine ⟨fun α β s v => ⟨rfl, rfl⟩, ?_, ?_, ?_⟩
  · intro α β s doc
    by_cases h : doc.frames.getD [] = []
    · left
      simp [load_replay, h]
    · right
      constructor
      · rfl
      · show (0 : ℤ) < ((doc.frames.getD []).length : ℤ)
        exact_mod_cast List.length_pos.mpr h
  · intro α β s
    by_cases h : s.frames = []
    · left
      rw [step_frames]
      exact h
    · right
      rw [step_frames, step_of_nonempty _ h]
      have hL : (0 : ℤ) < (s.frames.length : ℤ) := by
        exact_mod_cast List.length_pos.mpr h
      exact ⟨Int.emod_nonneg _ (by omega), Int.emod_lt_of_pos _ hL⟩
  · intro α β s hv
    rcases hv with h | ⟨h0, h1⟩
    · refine ⟨none, ?_⟩
      unfold get_current_frame_data
      rw [if_pos (by simp [h])]
    · have hne : ¬ s.frames.isEmpty := by
        rw [List.isEmpty_iff]
        intro hcontra
        rw [hcontra] at h1
        simp at h1
        omega
      refine ⟨some (s.frames.get ⟨s.current_frame.toNat, by omega⟩), ?_⟩
      unfold get_current_frame_data pyIndex
      rw [if_neg hne, dif_pos ⟨h0, h1⟩]
      rfl

theorem claim_C8_seek_corrected_witness :
    validCursor (⟨[42], [], 0, 1, false, 1, 1⟩ : ReplayPlayer ℕ ℕ) ∧
    ∃ r, get_current_frame_data (⟨[42], [], 0, 1, false, 1, 1⟩ : ReplayPlayer ℕ ℕ)
      = Except.ok r := by
  have h : validCursor (⟨[42], [], 0, 1, false, 1, 1⟩ : ReplayPlayer ℕ ℕ) := by
    right
    exact ⟨by decide, by decide⟩
  exact ⟨h, claim_C8_seek_corrected.2.2.2 ℕ ℕ _ h⟩

/-- A 3-vector of machine floats, modelled over the reals. -/
structure Vec3 where
  x : ℝ
  y : ℝ
  z : ℝ

/-- A quaternion `(x, y, z, w)` as stored in a recording. -/
structure Quat where
  x : ℝ
  y : ℝ
  z : ℝ
  w : ℝ

/-- One operation appended to a `vtkTransform` in PostMultiply mode. -/
inductive TOp where
  | scale (sx sy sz : ℝ)
  | rotateWXYZ (angle_deg ax ay az : ℝ)
  | translate (tx ty tz : ℝ)

/-- A `vtkTransform` as its list of appended operations; in PostMultiply
mode the first-appended operation is the first applied to a point. -/
abbrev VtkTransform := List TOp

/-- `np.linalg.norm` of a 3-vector (also Python's `(x²+y²+z²)**0.5`). -/
noncomputable def norm3 (v : Vec3) : ℝ := Real.sqrt (v.x ^ 2 + v.y ^ 2 + v.z ^ 2)

/-- `np.dot` on 3-vectors. -/
noncomputable def dot3 (a b : Vec3) : ℝ := a.x * b.x + a.y * b.y + a.z * b.z

/-- `np.cross` on 3-vectors. -/
noncomputable def cross3 (a b : Vec3) : Vec3 :=
  ⟨a.y * b.z - a.z * b.y, a.z * b.x - a.x * b.z, a.x * b.y - a.y * b.x⟩

/-- `np.clip(v, lo, hi)`. -/
noncomputable def clip (v lo hi : ℝ) : ℝ := min (max v lo) hi

/-- `math.degrees`. -/
noncomputable def degrees (v : ℝ) : ℝ := v * (180 / Real.pi)

/-- `math.radians` (the inverse conversion, used when a `RotateWXYZ`
operation, whose angle argument is in degrees, is applied to a point). -/
noncomputable def radians (v : ℝ) : ℝ := v * (Real.pi / 180)

/-- `math.atan2 y x`. -/
noncomputable def atan2 (y x : ℝ) : ℝ :=
  if 0 < x then Real.arctan (y / x)
  else if x < 0 then
    (if 0 ≤ y then Real.arctan (y / x) + Real.pi else Real.arctan (y / x) - Real.pi)
  else if 0 < y then Real.pi / 2
  else if y < 0 then -(Real.pi / 2)
  else 0

/-- `np.allclose` on 3-vectors with NumPy's default tolerances
(`rtol = 1e-5`, `atol = 1e-8`). -/
def allclose (a b : Vec3) : Prop :=
  |a.x - b.x| ≤ 1 / 100000000 + (1 / 100000) * |b.x| ∧
  |a.y - b.y| ≤ 1 / 100000000 + (1 / 100000) * |b.y| ∧
  |a.z - b.z| ≤ 1 / 100000000 + (1 / 100000) * |b.z|

/-- `MatrixTransform.to_axis_angle`: quaternion to (angle in radians, axis).
Returns angle 0 with a fixed axis when `2*atan2(|v|, w)` is zero; otherwise
it divides the vector part by its norm — Python float division, which
raises `ZeroDivisionError` when that norm is zero, a case reachable with a
nonzero angle (e.g. quaternion (0,0,0,-1), whose angle is 2*pi). -/
noncomputable def to_axis_angle (q : Quat) : Except String (ℝ × Vec3) :=
  if 2 * atan2 (Real.sqrt (q.x ^ 2 + q.y ^ 2 + q.z ^ 2)) q.w = 0 then
    Except.ok (0, ⟨1, 0, 0⟩)
  else if Real.sqrt (q.x ^ 2 + q.y ^ 2 + q.z ^ 2) = 0 then
    Except.error "ZeroDivisionError"
  else
    Except.ok (2 * atan2 (Real.sqrt (q.x ^ 2 + q.y ^ 2 + q.z ^ 2)) q.w,
      ⟨q.x / Real.sqrt (q.x ^ 2 + q.y ^ 2 + q.z ^ 2),
       q.y / Real.sqrt (q.x ^ 2 + q.y ^ 2 + q.z ^ 2),
       q.z / Real.sqrt (q.x ^ 2 + q.y ^ 2 + q.z ^ 2)⟩)

/-- `MatrixTransform.set_transform`: rotate by the quaternion's axis-angle
(angle converted to degrees by the source's constant 57.29578) unless the
angle is zero, then translate; a `ZeroDivisionError` raised by the
decomposition propagates.  PostMultiply: rotate is appended first. -/
noncomputable def set_transform (position : Vec3) (rotation : Quat) :
    Except String VtkTransform :=
  match to_axis_angle rotation with
  | Except.error e => Except.error e
  | Except.ok aa =>
    Except.ok
      ((if aa.1 ≠ 0 then
        [TOp.rotateWXYZ (aa.1 * 57.29578) aa.2.x aa.2.y aa.2.z]
      else [])
      ++ [TOp.translate position.x position.y position.z])

/-- `MatrixTransform.set_transform_from_vector`: scale local Y by the
direction's magnitude, substitute (0,0,1) for a near-zero direction, skip
the rotation when the normalized direction is `allclose` to the default
axis (0,1,0), rotate 180° about (0,1,0) when the cross product with the
default axis is near zero, and otherwise rotate by
`acos(clip(dot,-1,1))` degrees about the normalized cross product;
finally translate. -/
noncomputable def set_transform_from_vector (position dir0 : Vec3) : VtkTransform :=
  let magnitude := norm3 dir0
  let direction : Vec3 :=
    if magnitude < 1 / 1000000 then ⟨0, 0, 1⟩
    else ⟨dir0.x / magnitude, dir0.y / magnitude, dir0.z / magnitude⟩
  if allclose direction ⟨0, 1, 0⟩ then
    [TOp.scale 1 magnitude 1, TOp.translate position.x position.y position.z]
  else
    let axis := cross3 ⟨0, 1, 0⟩ direction
    if norm3 axis < 1 / 1000000 then
      [TOp.scale 1 magnitude 1, TOp.rotateWXYZ 180 0 1 0,
        TOp.translate position.x position.y position.z]
    else
      [TOp.scale 1 magnitude 1,
        TOp.rotateWXYZ (degrees (Real.arccos (clip (dot3 ⟨0, 1, 0⟩ direction) (-1) 1)))
          (axis.x / norm3 axis) (axis.y / norm3 axis) (axis.z / norm3 axis),
        TOp.translate position.x position.y position.z]

/-- Rotation of a point about an axis (normalized internally, as
`vtkTransform.RotateWXYZ` does) by an angle in radians, by the Rodrigues
formula. -/
noncomputable def rotAboutAxis (theta : ℝ) (a p : Vec3) : Vec3 :=
  let n := norm3 a
  let u : Vec3 := ⟨a.x / n, a.y / n, a.z / n⟩
  let c := Real.cos theta
  let s := Real.sin theta
  let d := u.x * p.x + u.y * p.y + u.z * p.z
  ⟨p.x * c + (u.y * p.z - u.z * p.y) * s + u.x * d * (1 - c),
   p.y * c + (u.z * p.x - u.x * p.z) * s + u.y * d * (1 - c),
   p.z * c + (u.x * p.y - u.y * p.x) * s + u.z * d * (1 - c)⟩

/-- Effect of one appended transform operation on a point. -/
noncomputable def applyOp (p : Vec3) (op : TOp) : Vec3 :=
  match op with
  | TOp.scale sx sy sz => ⟨sx * p.x, sy * p.y, sz * p.z⟩
  | TOp.rotateWXYZ angle_deg ax ay az => rotAboutAxis (radians angle_deg) ⟨ax, ay, az⟩ p
  | TOp.translate tx ty tz => ⟨p.x + tx, p.y + ty, p.z + tz⟩

/-- Application of a PostMultiply transform to a point: the operations are
applied in the order they were appended. -/
noncomputable def applyTransform (t : VtkTransform) (p : Vec3) : Vec3 :=
  t.foldl applyOp p

lemma atan2_zero_one : atan2 0 1 = 0 := by
  unfold atan2
  rw [if_pos one_pos]
  simp [Real.arctan_zero]

lemma atan2_one_zero : atan2 1 0 = Real.pi / 2 := by
  unfold atan2
  rw [if_neg (lt_irrefl 0), if_neg (lt_irrefl 0), if_pos one_pos]

lemma atan2_cos45 : atan2 (Real.sqrt 2 / 2) (Real.sqrt 2 / 2) = Real.pi / 4 := by
  have h : (0:ℝ) < Real.sqrt 2 / 2 := by positivity
  unfold atan2
  rw [if_pos h, div_self h.ne', Real.arctan_one]

lemma norm3_up1 : norm3 ⟨0, 1, 0⟩ = 1 := by
  show Real.sqrt ((0:ℝ) ^ 2 + 1 ^ 2 + 0 ^ 2) = 1
  rw [show ((0:ℝ) ^ 2 + 1 ^ 2 + 0 ^ 2) = 1 by norm_num, Real.sqrt_one]

lemma norm3_up2 : norm3 ⟨0, 2, 0⟩ = 2 := by
  show Real.sqrt ((0:ℝ) ^ 2 + 2 ^ 2 + 0 ^ 2) = 2
  rw [show ((0:ℝ) ^ 2 + 2 ^ 2 + 0 ^ 2) = (2:ℝ) ^ 2 by norm_num,
    Real.sqrt_sq (by norm_num : (0:ℝ) ≤ 2)]

lemma norm3_down : norm3 ⟨0, -1, 0⟩ = 1 := by
  show Real.sqrt ((0:ℝ) ^ 2 + (-1) ^ 2 + 0 ^ 2) = 1
  rw [show ((0:ℝ) ^ 2 + (-1) ^ 2 + 0 ^ 2) = 1 by norm_num, Real.sqrt_one]

lemma norm3_fwd : norm3 ⟨0, 0, 1⟩ = 1 := by
  show Real.sqrt ((0:ℝ) ^ 2 + 0 ^ 2 + 1 ^ 2) = 1
  rw [show ((0:ℝ) ^ 2 + 0 ^ 2 + 1 ^ 2) = 1 by norm_num, Real.sqrt_one]

lemma norm3_zero : norm3 ⟨0, 0, 0⟩ = 0 := by
  show Real.sqrt ((0:ℝ) ^ 2 + 0 ^ 2 + 0 ^ 2) = 0
  rw [show ((0:ℝ) ^ 2 + 0 ^ 2 + 0 ^ 2) = 0 by norm_num, Real.sqrt_zero]

lemma norm3_ex : norm3 ⟨1, 0, 0⟩ = 1 := by
  show Real.sqrt ((1:ℝ) ^ 2 + 0 ^ 2 + 0 ^ 2) = 1
  rw [show ((1:ℝ) ^ 2 + 0 ^ 2 + 0 ^ 2) = 1 by norm_num, Real.sqrt_one]

lemma allclose_up : allclose ⟨0, 1, 0⟩ ⟨0, 1, 0⟩ := by
  unfold allclose
  norm_num

lemma not_allclose_down : ¬ allclose ⟨0, -1, 0⟩ ⟨0, 1, 0⟩ := by
  unfold allclose
  intro h
  obtain ⟨-, h2, -⟩ := h
  rw [abs_le] at h2
  norm_num at h2

lemma not_allclose_fwd : ¬ allclose ⟨0, 0, 1⟩ ⟨0, 1, 0⟩ := by
  unfold allclose
  intro h
  obtain ⟨-, h2, -⟩ := h
  rw [abs_le] at h2
  norm_num at h2

lemma cross3_up_down : cross3 ⟨0, 1, 0⟩ ⟨0, -1, 0⟩ = ⟨0, 0, 0⟩ := by
  unfold cross3
  norm_num

lemma cross3_up_fwd : cross3 ⟨0, 1, 0⟩ ⟨0, 0, 1⟩ = ⟨1, 0, 0⟩ := by
  unfold cross3
  norm_num

lemma dot3_up_fwd : dot3 ⟨0, 1, 0⟩ ⟨0, 0, 1⟩ = 0 := by
  unfold dot3
  norm_num

lemma clip_zero : clip 0 (-1) 1 = 0 := by
  unfold clip
  rw [max_eq_left (by norm_num : (-1:ℝ) ≤ 0), min_eq_left (by norm_num : (0:ℝ) ≤ 1)]

lemma degrees_pi_div_two : degrees (Real.pi / 2) = 90 := by
  unfold degrees
  have hpi := Real.pi_ne_zero
  field_simp
  ring

lemma radians_180 : radians 180 = Real.pi := by
  unfold radians
  have hpi := Real.pi_ne_zero
  field_simp

lemma atan2_zero_neg_one : atan2 0 (-1) = Real.pi := by
  unfold atan2
  rw [if_neg (by norm_num : ¬ ((0:ℝ) < -1)), if_pos (by norm_num : (-1:ℝ) < 0),
    if_pos (le_refl (0:ℝ)),
    show (0:ℝ) / (-1) = 0 by norm_num, Real.arctan_zero, zero_add]

lemma to_axis_angle_id : to_axis_angle ⟨0, 0, 0, 1⟩ = Except.ok (0, ⟨1, 0, 0⟩) := by
  unfold to_axis_angle
  rw [show ((0:ℝ) ^ 2 + 0 ^ 2 + 0 ^ 2) = 0 by norm_num, Real.sqrt_zero,
    atan2_zero_one, if_pos (by norm_num : (2:ℝ) * 0 = 0)]

lemma to_axis_angle_neg_w :
    to_axis_angle ⟨0, 0, 0, -1⟩ = Except.error "ZeroDivisionError" := by
  unfold to_axis_angle
  rw [show ((0:ℝ) ^ 2 + 0 ^ 2 + 0 ^ 2) = 0 by norm_num, Real.sqrt_zero,
    atan2_zero_neg_one]
  rw [if_neg (by positivity : ¬ (2 * Real.pi = 0)), if_pos rfl]

lemma to_axis_angle_x180 :
    to_axis_angle ⟨1, 0, 0, 0⟩ = Except.ok (Real.pi, ⟨1, 0, 0⟩) := by
  unfold to_axis_angle
  rw [show ((1:ℝ) ^ 2 + 0 ^ 2 + 0 ^ 2) = 1 by norm_num, Real.sqrt_one, atan2_one_zero]
  rw [if_neg (by positivity : ¬ (2 * (Real.pi / 2) = 0)),
    if_neg (by norm_num : ¬ ((1:ℝ) = 0))]
  rw [Except.ok.injEq, Prod.mk.injEq]
  constructor
  · ring
  · norm_num

lemma to_axis_angle_z45 :
    to_axis_angle ⟨0, 0, Real.sin (Real.pi / 4), Real.cos (Real.pi / 4)⟩
      = Except.ok (Real.pi / 2, ⟨0, 0, 1⟩) := by
  have hpos : (0:ℝ) < Real.sqrt 2 / 2 := by positivity
  unfold to_axis_angle
  rw [Real.sin_pi_div_four, Real.cos_pi_div_four]
  rw [show ((0:ℝ) ^ 2 + 0 ^ 2 + (Real.sqrt 2 / 2) ^ 2) = (Real.sqrt 2 / 2) ^ 2 by ring,
    Real.sqrt_sq hpos.le, atan2_cos45]
  rw [if_neg (by positivity : ¬ (2 * (Real.pi / 4) = 0)), if_neg hpos.ne']
  rw [Except.ok.injEq, Prod.mk.injEq]
  constructor
  · ring
  · rw [Vec3.mk.injEq]
    refine ⟨by rw [zero_div], by rw [zero_div], by rw [div_self hpos.ne']⟩

lemma set_transform_id (p : Vec3) :
    set_transform p ⟨0, 0, 0, 1⟩ = Except.ok [TOp.translate p.x p.y p.z] := by
  unfold set_transform
  simp only [to_axis_angle_id]
  rw [if_neg (by norm_num : ¬ ((0:ℝ) ≠ 0))]
  rfl

lemma stfv_up1 (p : Vec3) : set_transform_from_vector p ⟨0, 1, 0⟩ =
    [TOp.scale 1 1 1, TOp.translate p.x p.y p.z] := by
  simp only [set_transform_from_vector]
  rw [norm3_up1]
  rw [if_neg (by norm_num : ¬ ((1:ℝ) < 1 / 1000000))]
  have hd : (⟨(⟨0, 1, 0⟩ : Vec3).x / 1, (⟨0, 1, 0⟩ : Vec3).y / 1,
      (⟨0, 1, 0⟩ : Vec3).z / 1⟩ : Vec3) = ⟨0, 1, 0⟩ := by
    norm_num
  rw [hd, if_pos allclose_up]

lemma stfv_up2 (p : Vec3) : set_transform_from_vector p ⟨0, 2, 0⟩ =
    [TOp.scale 1 2 1, TOp.translate p.x p.y p.z] := by
  simp only [set_transform_from_vector]
  rw [norm3_up2]
  rw [if_neg (by norm_num : ¬ ((2:ℝ) < 1 / 1000000))]
  have hd : (⟨(⟨0, 2, 0⟩ : Vec3).x / 2, (⟨0, 2, 0⟩ : Vec3).y / 2,
      (⟨0, 2, 0⟩ : Vec3).z / 2⟩ : Vec3) = ⟨0, 1, 0⟩ := by
    norm_num
  rw [hd, if_pos allclose_up]

lemma stfv_down (p : Vec3) : set_transform_from_vector p ⟨0, -1, 0⟩ =
    [TOp.scale 1 1 1, TOp.rotateWXYZ 180 0 1 0, TOp.translate p.x p.y p.z] := by
  simp only [set_transform_from_vector]
  rw [norm3_down]
  rw [if_neg (by norm_num : ¬ ((1:ℝ) < 1 / 1000000))]
  have hd : (⟨(⟨0, -1, 0⟩ : Vec3).x / 1, (⟨0, -1, 0⟩ : Vec3).y / 1,
      (⟨0, -1, 0⟩ : Vec3).z / 1⟩ : Vec3) = ⟨0, -1, 0⟩ := by
    norm_num
  rw [hd, if_neg not_allclose_down, cross3_up_down, norm3_zero,
    if_pos (by norm_num : (0:ℝ) < 1 / 1000000)]

lemma stfv_fwd (p : Vec3) : set_transform_from_vector p ⟨0, 0, 1⟩ =
    [TOp.scale 1 1 1, TOp.rotateWXYZ 90 1 0 0, TOp.translate p.x p.y p.z] := by
  simp only [set_transform_from_vector]
  rw [norm3_fwd]
  rw [if_neg (by norm_num : ¬ ((1:ℝ) < 1 / 1000000))]
  have hd : (⟨(⟨0, 0, 1⟩ : Vec3).x / 1, (⟨0, 0, 1⟩ : Vec3).y / 1,
      (⟨0, 0, 1⟩ : Vec3).z / 1⟩ : Vec3) = ⟨0, 0, 1⟩ := by
    norm_num
  rw [hd, if_neg not_allclose_fwd, cross3_up_fwd, norm3_ex,
    if_neg (by norm_num : ¬ ((1:ℝ) < 1 / 1000000)), dot3_up_fwd, clip_zero,
    Real.arccos_zero, degrees_pi_div_two]
  norm_num

lemma rot_pi_y : rotAboutAxis (radians 180) ⟨0, 1, 0⟩ ⟨0, 1, 0⟩ = ⟨0, 1, 0⟩ := by
  simp only [rotAboutAxis]
  rw [radians_180, norm3_up1, Real.cos_pi, Real.sin_pi]
  norm_num

/-- C2 counterexample: at the unit quaternion (0,0,0,-1) the decomposition
angle `2*atan2(0,-1) = 2*pi` is nonzero, yet the builder raises
`ZeroDivisionError` while normalizing the zero vector part instead of
decomposing the quaternion into an angle and a normalized axis. -/
theorem claim_C2_quat_axis_angle_cex :
    to_axis_angle ⟨0, 0, 0, -1⟩ = Except.error "ZeroDivisionError" ∧
    2 * atan2 (Real.sqrt ((0:ℝ) ^ 2 + 0 ^ 2 + 0 ^ 2)) (-1) = 2 * Real.pi ∧
    2 * Real.pi ≠ 0 ∧
    ((0:ℝ) ^ 2 + 0 ^ 2 + 0 ^ 2 + (-1) ^ 2 = 1) := by
  refine ⟨to_axis_angle_neg_w, ?_, by positivity, by norm_num⟩
  rw [show ((0:ℝ) ^ 2 + 0 ^ 2 + 0 ^ 2) = 0 by norm_num, Real.sqrt_zero,
    atan2_zero_neg_one]

/-- C2 (amended): the decomposition always computes the angle
`2*atan2(sqrt(x^2+y^2+z^2), w)`: when that angle is 0 it returns angle 0
with a fixed axis and the rotate step is skipped entirely (pure
translation); when the angle and the vector norm are both nonzero it
returns the angle about `(x,y,z)` normalized; when the angle is nonzero
but the vector norm is zero (e.g. quaternion (0,0,0,-1)) the
normalization raises `ZeroDivisionError` instead of decomposing; the
identity quaternion (0,0,0,1) gives angle 0 and an identity rotation,
(1,0,0,0) gives angle pi (180 degrees) about axis (1,0,0), and
(0,0,sin 45, cos 45) gives angle pi/2 (90 degrees) about axis (0,0,1). -/
theorem claim_C2_quat_axis_angle_corrected :
    (∀ q : Quat, 2 * atan2 (Real.sqrt (q.x ^ 2 + q.y ^ 2 + q.z ^ 2)) q.w = 0 →
      to_axis_angle q = Except.ok (0, ⟨1, 0, 0⟩)) ∧
    (∀ q : Quat, 2 * atan2 (Real.sqrt (q.x ^ 2 + q.y ^ 2 + q.z ^ 2)) q.w ≠ 0 →
      Real.sqrt (q.x ^ 2 + q.y ^ 2 + q.z ^ 2) = 0 →
      to_axis_angle q = Except.error "ZeroDivisionError") ∧
    (∀ q : Quat, 2 * atan2 (Real.sqrt (q.x ^ 2 + q.y ^ 2 + q.z ^ 2)) q.w ≠ 0 →
      Real.sqrt (q.x ^ 2 + q.y ^ 2 + q.z ^ 2) ≠ 0 →
      to_axis_angle q = Except.ok
        (2 * atan2 (Real.sqrt (q.x ^ 2 + q.y ^ 2 + q.z ^ 2)) q.w,
         ⟨q.x / Real.sqrt (q.x ^ 2 + q.y ^ 2 + q.z ^ 2),
          q.y / Real.sqrt (q.x ^ 2 + q.y ^ 2 + q.z ^ 2),
          q.z / Real.sqrt (q.x ^ 2 + q.y ^ 2 + q.z ^ 2)⟩)) ∧
    (∀ (p : Vec3) (q : Quat) (ax : Vec3), to_axis_angle q = Except.ok (0, ax) →
      set_transform p q = Except.ok [TOp.translate p.x p.y p.z]) ∧
    (to_axis_angle ⟨0, 0, 0, 1⟩ = Except.ok (0, ⟨1, 0, 0⟩) ∧
      ∀ p : Vec3, set_transform p ⟨0, 0, 0, 1⟩
        = Except.ok [TOp.translate p.x p.y p.z]) ∧
    to_axis_angle ⟨1, 0, 0, 0⟩ = Except.ok (Real.pi, ⟨1, 0, 0⟩) ∧
    to_axis_angle ⟨0, 0, Real.sin (Real.pi / 4), Real.cos (Real.pi / 4)⟩
      = Except.ok (Real.pi / 2, ⟨0, 0, 1⟩) := by
  refine ⟨?_, ?_, ?_, ?_, ⟨to_axis_angle_id, set_transform_id⟩,
    to_axis_angle_x180, to_axis_angle_z45⟩
  · intro q h
    unfold to_axis_angle
    rw [if_pos h]
  · intro q h hz
    unfold to_axis_angle
    rw [if_neg h, if_pos hz]
  · intro q h hz
    unfold to_axis_angle
    rw [if_neg h, if_neg hz]
  · intro p q ax h
    unfold set_transform
    simp only [h]
    rw [if_neg (by norm_num : ¬ ((0:ℝ) ≠ 0))]
    rfl

theorem claim_C2_quat_axis_angle_corrected_witness :
    (2 * atan2 (Real.sqrt ((0:ℝ) ^ 2 + 0 ^ 2 + 0 ^ 2)) (-1) ≠ 0 ∧
      Real.sqrt ((0:ℝ) ^ 2 + 0 ^ 2 + 0 ^ 2) = 0 ∧
      to_axis_angle ⟨0, 0, 0, -1⟩ = Except.error "ZeroDivisionError") ∧
    (2 * atan2 (Real.sqrt ((1:ℝ) ^ 2 + 0 ^ 2 + 0 ^ 2)) 0 ≠ 0 ∧
      Real.sqrt ((1:ℝ) ^ 2 + 0 ^ 2 + 0 ^ 2) ≠ 0 ∧
      to_axis_angle ⟨1, 0, 0, 0⟩ = Except.ok
        (2 * atan2 (Real.sqrt ((1:ℝ) ^ 2 + 0 ^ 2 + 0 ^ 2)) 0,
         ⟨1 / Real.sqrt ((1:ℝ) ^ 2 + 0 ^ 2 + 0 ^ 2),
          0 / Real.sqrt ((1:ℝ) ^ 2 + 0 ^ 2 + 0 ^ 2),
          0 / Real.sqrt ((1:ℝ) ^ 2 + 0 ^ 2 + 0 ^ 2)⟩)) ∧
    (to_axis_angle ⟨0, 0, 0, 1⟩ = Except.ok (0, ⟨1, 0, 0⟩) ∧
      set_transform ⟨0, 0, 0⟩ ⟨0, 0, 0, 1⟩ = Except.ok [TOp.translate 0 0 0]) := by
  have hs0 : Real.sqrt ((0:ℝ) ^ 2 + 0 ^ 2 + 0 ^ 2) = 0 := by
    rw [show ((0:ℝ) ^ 2 + 0 ^ 2 + 0 ^ 2) = 0 by norm_num, Real.sqrt_zero]
  have hs1 : Real.sqrt ((1:ℝ) ^ 2 + 0 ^ 2 + 0 ^ 2) = 1 := by
    rw [show ((1:ℝ) ^ 2 + 0 ^ 2 + 0 ^ 2) = 1 by norm_num, Real.sqrt_one]
  have ha0 : 2 * atan2 (Real.sqrt ((0:ℝ) ^ 2 + 0 ^ 2 + 0 ^ 2)) (-1) ≠ 0 := by
    rw [hs0, atan2_zero_neg_one]
    positivity
  have ha1 : 2 * atan2 (Real.sqrt ((1:ℝ) ^ 2 + 0 ^ 2 + 0 ^ 2)) 0 ≠ 0 := by
    rw [hs1, atan2_one_zero]
    positivity
  have hz1 : Real.sqrt ((1:ℝ) ^ 2 + 0 ^ 2 + 0 ^ 2) ≠ 0 := by
    rw [hs1]
    norm_num
  refine ⟨⟨ha0, hs0, ?_⟩, ⟨ha1, hz1, ?_⟩, to_axis_angle_id, ?_⟩
  · exact claim_C2_quat_axis_angle_corrected.2.1 ⟨0, 0, 0, -1⟩ ha0 hs0
  · exact claim_C2_quat_axis_angle_corrected.2.2.1 ⟨1, 0, 0, 0⟩ ha1 hz1
  · exact claim_C2_quat_axis_angle_corrected.2.2.2.1 ⟨0, 0, 0⟩ ⟨0, 0, 0, 1⟩
      ⟨1, 0, 0⟩ to_axis_angle_id

/-- C3: the claim is right and the code is wrong.  For the direction
(0,-1,0), anti-parallel to the default axis (0,1,0), the source rotates
180 degrees about (0,1,0) itself — an axis parallel, not perpendicular,
to the default axis — so the built transform maps the arrow's default
axis back to (0,1,0) instead of onto the requested (0,-1,0). -/
theorem claim_C3_antiparallel_bug :
    set_transform_from_vector ⟨0, 0, 0⟩ ⟨0, -1, 0⟩
      = [TOp.scale 1 1 1, TOp.rotateWXYZ 180 0 1 0, TOp.translate 0 0 0] ∧
    applyTransform (set_transform_from_vector ⟨0, 0, 0⟩ ⟨0, -1, 0⟩) ⟨0, 1, 0⟩
      = ⟨0, 1, 0⟩ ∧
    (⟨0, 1, 0⟩ : Vec3) ≠ ⟨0, -1, 0⟩ := by
  have h1 : set_transform_from_vector ⟨0, 0, 0⟩ ⟨0, -1, 0⟩
      = [TOp.scale 1 1 1, TOp.rotateWXYZ 180 0 1 0, TOp.translate 0 0 0] :=
    stfv_down ⟨0, 0, 0⟩
  refine ⟨h1, ?_, ?_⟩
  · rw [h1]
    unfold applyTransform
    simp only [List.foldl_cons, List.foldl_nil, applyOp]
    have hsc : (⟨1 * (⟨0, 1, 0⟩ : Vec3).x, 1 * (⟨0, 1, 0⟩ : Vec3).y,
        1 * (⟨0, 1, 0⟩ : Vec3).z⟩ : Vec3) = ⟨0, 1, 0⟩ := by
      norm_num
    rw [hsc, rot_pi_y]
    norm_num
  · intro hcontra
    rw [Vec3.mk.injEq] at hcontra
    norm_num at hcontra

/-- C9: `clip` always lands in [-1,1]; for a direction of magnitude at
least epsilon whose normalization is neither allclose to the default axis
(0,1,0) nor has a near-zero cross product with it, the builder scales
local Y by the magnitude and rotates by `acos(clip(dot((0,1,0),dir_n),-1,1))`
converted to degrees about the normalized cross product, then translates;
direction (0,0,1) gives rotation axis (1,0,0) and angle 90 degrees. -/
theorem claim_C9_direction_general :
    (∀ v : ℝ, -1 ≤ clip v (-1) 1 ∧ clip v (-1) 1 ≤ 1) ∧
    (∀ (p dir0 dn : Vec3),
      ¬ (norm3 dir0 < 1 / 1000000) →
      dn = ⟨dir0.x / norm3 dir0, dir0.y / norm3 dir0, dir0.z / norm3 dir0⟩ →
      ¬ allclose dn ⟨0, 1, 0⟩ →
      ¬ (norm3 (cross3 ⟨0, 1, 0⟩ dn) < 1 / 1000000) →
      set_transform_from_vector p dir0 =
        [TOp.scale 1 (norm3 dir0) 1,
         TOp.rotateWXYZ (degrees (Real.arccos (clip (dot3 ⟨0, 1, 0⟩ dn) (-1) 1)))
           ((cross3 ⟨0, 1, 0⟩ dn).x / norm3 (cross3 ⟨0, 1, 0⟩ dn))
           ((cross3 ⟨0, 1, 0⟩ dn).y / norm3 (cross3 ⟨0, 1, 0⟩ dn))
           ((cross3 ⟨0, 1, 0⟩ dn).z / norm3 (cross3 ⟨0, 1, 0⟩ dn)),
         TOp.translate p.x p.y p.z]) ∧
    (∀ p : Vec3, set_transform_from_vector p ⟨0, 0, 1⟩ =
      [TOp.scale 1 1 1, TOp.rotateWXYZ 90 1 0 0, TOp.translate p.x p.y p.z]) := by
  refine ⟨?_, ?_, stfv_fwd⟩
  · intro v
    unfold clip
    refine ⟨le_min (le_max_right v (-1)) (by norm_num), min_le_right _ 1⟩
  · intro p dir0 dn hmag hdn hall hcross
    subst hdn
    simp only [set_transform_from_vector]
    rw [if_neg hmag, if_neg hall, if_neg hcross]

theorem claim_C9_direction_general_witness :
    (-1 ≤ clip (1/2) (-1) 1 ∧ clip (1/2) (-1) 1 ≤ 1) ∧
    (¬ (norm3 ⟨0, 0, 1⟩ < 1 / 1000000)) ∧
    set_transform_from_vector ⟨0, 0, 0⟩ ⟨0, 0, 1⟩ =
      [TOp.scale 1 (norm3 ⟨0, 0, 1⟩) 1,
       TOp.rotateWXYZ (degrees (Real.arccos (clip (dot3 ⟨0, 1, 0⟩ ⟨0, 0, 1⟩) (-1) 1)))
         ((cross3 ⟨0, 1, 0⟩ ⟨0, 0, 1⟩).x / norm3 (cross3 ⟨0, 1, 0⟩ ⟨0, 0, 1⟩))
         ((cross3 ⟨0, 1, 0⟩ ⟨0, 0, 1⟩).y / norm3 (cross3 ⟨0, 1, 0⟩ ⟨0, 0, 1⟩))
         ((cross3 ⟨0, 1, 0⟩ ⟨0, 0, 1⟩).z / norm3 (cross3 ⟨0, 1, 0⟩ ⟨0, 0, 1⟩)),
       TOp.translate 0 0 0] := by
  have hmag : ¬ (norm3 ⟨0, 0, 1⟩ < 1 / 1000000) := by
    rw [norm3_fwd]
    norm_num
  have hdn : (⟨0, 0, 1⟩ : Vec3) = ⟨(⟨0, 0, 1⟩ : Vec3).x / norm3 ⟨0, 0, 1⟩,
      (⟨0, 0, 1⟩ : Vec3).y / norm3 ⟨0, 0, 1⟩, (⟨0, 0, 1⟩ : Vec3).z / norm3 ⟨0, 0, 1⟩⟩ := by
    rw [norm3_fwd]
    norm_num
  have hall : ¬ allclose ⟨0, 0, 1⟩ ⟨0, 1, 0⟩ := not_allclose_fwd
  have hcross : ¬ (norm3 (cross3 ⟨0, 1, 0⟩ ⟨0, 0, 1⟩) < 1 / 1000000) := by
    rw [cross3_up_fwd, norm3_ex]
    norm_num
  refine ⟨claim_C9_direction_general.1 (1/2), hmag, ?_⟩
  exact claim_C9_direction_general.2.1 ⟨0, 0, 0⟩ ⟨0, 0, 1⟩ ⟨0, 0, 1⟩ hmag hdn hall hcross

/-- Rendered actor state as touched by `update_display`: the visibility
flag and the user transform installed by `SetUserTransform`. -/
structure Actor where
  visibility : Bool
  userTransform : VtkTransform

/-- Modelled from the spec: `ActorContainer` (the module
`Libraries/GeometryContainer.py` is not in the sources); per the spec's
ObjectState/render-record description it carries id, name, position,
rotation (quaternion x,y,z,w), opaque metadata and the rendered actor. -/
structure ActorContainer where
  id : ℤ
  name : String
  position : Vec3
  rotation : Quat
  metadata : String
  actor : Actor

/-- Modelled from the spec: `VectorContainer` (same missing module); a
vector-annotation slot holding the arrow's rendered actor (transform and
visible flag). -/
structure VectorContainer where
  actor : Actor

/-- The `MainWindow` pool of vector slots: the `vectors` list and the
`current_vector` cursor. -/
structure PoolState where
  vectors : List VectorContainer
  current_vector : ℕ

/-- An `ObjectState` dict of a frame; every field may be absent.  Direct
Python indexing of an absent field raises `KeyError`. -/
structure ObjectState where
  id : Option ℤ
  p : Option Vec3
  r : Option Quat
  i : Option String
  m : Option String

/-- A `Command` dict of a frame's `cmd` list. -/
structure Command where
  t : Option String
  vx : Option ℝ
  vy : Option ℝ
  vz : Option ℝ
  ox : Option ℝ
  oy : Option ℝ
  oz : Option ℝ

/-- A `Frame` dict: timestamp `t`, object states `states`, commands `cmd`;
all read with `.get(..., default)` by `update_display`. -/
structure Frame where
  t : Option ℝ
  states : Option (List ObjectState)
  cmd : Option (List Command)

/-- The `MainWindow.geometry` dict, keyed by object id. -/
def Geometry : Type := ℤ → Option ActorContainer

/-- Python truthiness of a frame dict (`if not frame_data: return`): a
dict with at least one key present is truthy. -/
def frame_truthy (f : Frame) : Prop :=
  f.t ≠ none ∨ f.states ≠ none ∨ f.cmd ≠ none

/-- `MainWindow.hide_debug_geometry`: mark every vector slot invisible and
reset the pool cursor to 0. -/
def hide_debug_geometry (ps : PoolState) : PoolState :=
  { vectors := ps.vectors.map fun vc =>
      { vc with actor := { vc.actor with visibility := false } }
    current_vector := 0 }

/-- The transform `update_display` computes for a `vector` command: the
command's origin and direction fields, absent ones defaulted
(`vx,vy,vz` default (0,1,0); `ox,oy,oz` default (0,0,0)), fed to
`MatrixTransform.set_transform_from_vector`. -/
noncomputable def cmdTransform (c : Command) : VtkTransform :=
  set_transform_from_vector ⟨c.ox.getD 0, c.oy.getD 0, c.oz.getD 0⟩
    ⟨c.vx.getD 0, c.vy.getD 1, c.vz.getD 0⟩

/-- One iteration of the command loop in `update_display`: a `vector`-kind
command writes the slot at the pool cursor (new transform, visible) and
advances the cursor only while it is below `len(vectors) - 1`; other kinds
are skipped; a missing `t` key raises. -/
noncomputable def process_command (ps : PoolState) (c : Command) : Except String PoolState :=
  match c.t with
  | none => Except.error "KeyError"
  | some k =>
    if k = "v" then
      match ps.vectors[ps.current_vector]? with
      | none => Except.error "IndexError"
      | some vc =>
        Except.ok
          { vectors := ps.vectors.set ps.current_vector
              { vc with actor := { visibility := true, userTransform := cmdTransform c } }
            current_vector :=
              if ps.current_vector < ps.vectors.length - 1
              then ps.current_vector + 1 else ps.current_vector }
    else Except.ok ps

/-- The command loop of `update_display` over a frame's `cmd` list. -/
noncomputable def process_commands : PoolState → List Command → Except String PoolState
  | ps, [] => Except.ok ps
  | ps, c :: rest =>
    match process_command ps c with
    | Except.error e => Except.error e
    | Except.ok ps2 => process_commands ps2 rest

/-- One iteration of the state loop in `update_display`: look up the
state's object container (raising `KeyError` on an absent `id` field or an
unknown id), read `p`, `r`, `i`, `m` by direct indexing (raising on an
absent field), store position/rotation/metadata, set visibility from
`state["i"] == "i"`, force it to false when the cursor is on the last
frame, and install `set_transform(p, r)` on the actor (propagating the
`ZeroDivisionError` that the decomposition can raise). -/
noncomputable def apply_state (g : Geometry) (lastFrame : Bool) (st : ObjectState) :
    Except String Geometry :=
  match st.id with
  | none => Except.error "KeyError"
  | some j =>
    match g j with
    | none => Except.error "KeyError"
    | some cont =>
      match st.p with
      | none => Except.error "KeyError"
      | some pos =>
        match st.r with
        | none => Except.error "KeyError"
        | some rot =>
          match st.i with
          | none => Except.error "KeyError"
          | some iflag =>
            match st.m with
            | none => Except.error "KeyError"
            | some meta =>
              match set_transform pos rot with
              | Except.error e => Except.error e
              | Except.ok tr =>
                Except.ok (Function.update g j (some
                  { cont with
                    position := pos
                    rotation := rot
                    metadata := meta
                    actor :=
                      { visibility := if lastFrame then false else iflag == "i"
                        userTransform := tr } }))

/-- The state loop of `update_display` over a frame's `states` list. -/
noncomputable def apply_states (g : Geometry) (lastFrame : Bool) :
    List ObjectState → Except String Geometry
  | [] => Except.ok g
  | st :: rest =>
    match apply_state g lastFrame st with
    | Except.error e => Except.error e
    | Except.ok g2 => apply_states g2 lastFrame rest

/-- `MainWindow.update_display`: hide the vector pool, fetch the current
frame (propagating an `IndexError` from a bad seek), return early on a
missing or falsy frame, otherwise run the state loop (visibility forced
off when `current_frame == len(frames) - 1`) and then the command loop
over the hidden pool. -/
noncomputable def update_display (p : ReplayPlayer Frame β) (g : Geometry)
    (ps : PoolState) : Except String (Geometry × PoolState) :=
  match get_current_frame_data p with
  | Except.error e => Except.error e
  | Except.ok none => Except.ok (g, hide_debug_geometry ps)
  | Except.ok (some f) =>
    if frame_truthy f then
      match apply_states g (decide (p.current_frame = (p.frames.length : ℤ) - 1))
          (f.states.getD []) with
      | Except.error e => Except.error e
      | Except.ok g2 =>
        match process_commands (hide_debug_geometry ps) (f.cmd.getD []) with
        | Except.error e => Except.error e
        | Except.ok ps2 => Except.ok (g2, ps2)
    else Except.ok (g, hide_debug_geometry ps)

/-- The 50-slot arrow pool created by `instatiate_geometry`: every arrow
actor starts invisible with no user transform installed. -/
def initial_pool : PoolState :=
  { vectors := List.replicate 50 ⟨⟨false, []⟩⟩, current_vector := 0 }

/-- The slot value written for a `vector` command. -/
noncomputable def writtenSlot (c : Command) : VectorContainer :=
  ⟨{ visibility := true, userTransform := cmdTransform c }⟩


lemma process_command_v (V : List VectorContainer) (k : ℕ) (c : Command)
    (hc : c.t = some "v") (hk : k < V.length) :
    process_command ⟨V, k⟩ c = Except.ok
      ⟨V.set k (writtenSlot c), if k < V.length - 1 then k + 1 else k⟩ := by
  unfold process_command
  rw [hc]
  rw [show (⟨V, k⟩ : PoolState).vectors[(⟨V, k⟩ : PoolState).current_vector]? = V[k]? from rfl,
    List.getElem?_eq_getElem hk]
  rfl

lemma process_commands_cons (ps : PoolState) (c : Command) (rest : List Command) :
    process_commands ps (c :: rest)
      = match process_command ps c with
        | Except.error e => Except.error e
        | Except.ok ps2 => process_commands ps2 rest := rfl


lemma process_commands_char (cmds : List Command) :
    ∀ (V : List VectorContainer) (k : ℕ),
      (∀ c ∈ cmds, c.t = some "v") → k < V.length →
      ∃ ps2, process_commands ⟨V, k⟩ cmds = Except.ok ps2 ∧
        ps2.vectors.length = V.length ∧
        ps2.current_vector = min (k + cmds.length) (V.length - 1) ∧
        (∀ j, j + 1 < V.length →
          ps2.vectors[j]? = if k ≤ j ∧ j < k + cmds.length
            then (cmds[j - k]?).map writtenSlot else V[j]?) ∧
        (ps2.vectors[V.length - 1]? = if V.length ≤ k + cmds.length
            then (cmds[cmds.length - 1]?).map writtenSlot else V[V.length - 1]?) := by
  induction cmds with
  | nil =>
    intro V k hall hk
    refine ⟨⟨V, k⟩, rfl, rfl, ?_, ?_, ?_⟩
    · show k = min (k + ([] : List Command).length) (V.length - 1)
      rw [List.length_nil]
      omega
    · intro j hj
      rw [if_neg (by rw [List.length_nil]; omega)]
    · rw [if_neg (by rw [List.length_nil]; omega)]
  | cons c rest ih =>
    intro V k hall hk
    have hc : c.t = some "v" := hall c (List.mem_cons_self c rest)
    have hrest : ∀ x ∈ rest, x.t = some "v" :=
      fun x hx => hall x (List.mem_cons_of_mem c hx)
    have hstep := process_command_v V k c hc hk
    have hlenset : (V.set k (writtenSlot c)).length = V.length := List.length_set V k _
    have hVset : ∀ j : ℕ, (V.set k (writtenSlot c))[j]?
        = if k = j then some (writtenSlot c) else V[j]? := by
      intro j
      rw [List.getElem?_set, if_pos hk]
    by_cases hkN : k < V.length - 1
    · obtain ⟨ps2, hrun, hlen2, hcur2, hslotA, hslotB⟩ :=
        ih (V.set k (writtenSlot c)) (k + 1) hrest (by omega)
      rw [hlenset] at hlen2 hcur2 hslotA hslotB
      refine ⟨ps2, ?_, hlen2, ?_, ?_, ?_⟩
      · rw [process_commands_cons, hstep, if_pos hkN]
        exact hrun
      · rw [hcur2, List.length_cons]
        congr 1
        omega
      · intro j hj
        rw [hslotA j hj, List.length_cons]
        by_cases h1 : j < k
        · rw [if_neg (by omega), if_neg (by omega), hVset j, if_neg (by omega)]
        · by_cases h2 : j = k
          · subst h2
            rw [if_neg (by omega), if_pos (by omega), hVset j, if_pos rfl,
              Nat.sub_self, List.getElem?_cons_zero]
            rfl
          · by_cases h3 : j < k + 1 + rest.length
            · rw [if_pos (by omega), if_pos (by omega),
                show j - k = (j - (k + 1)) + 1 by omega, List.getElem?_cons_succ]
            · rw [if_neg (by omega), if_neg (by omega), hVset j, if_neg (by omega)]
      · rw [hslotB, List.length_cons, Nat.add_sub_cancel]
        by_cases h5 : V.length ≤ k + 1 + rest.length
        · rw [if_pos h5, if_pos (by omega)]
          have hmge : 1 ≤ rest.length := by omega
          conv_rhs => rw [show rest.length = (rest.length - 1) + 1 by omega]
          rw [List.getElem?_cons_succ]
        · rw [if_neg h5, if_neg (by omega), hVset _, if_neg (by omega)]
    · -- the cursor has reached the last slot: it stalls there and each
      -- further command in the frame rewrites that slot
      have hkeq : k = V.length - 1 := by omega
      obtain ⟨ps2, hrun, hlen2, hcur2, hslotA, hslotB⟩ :=
        ih (V.set k (writtenSlot c)) k hrest (by omega)
      rw [hlenset] at hlen2 hcur2 hslotA hslotB
      refine ⟨ps2, ?_, hlen2, ?_, ?_, ?_⟩
      · rw [process_commands_cons, hstep, if_neg hkN]
        exact hrun
      · rw [hcur2, List.length_cons]
        rw [min_eq_right (by omega), min_eq_right (by omega)]
      · intro j hj
        rw [hslotA j hj, List.length_cons]
        have h1 : j < k := by omega
        rw [if_neg (by omega), if_neg (by omega), hVset j, if_neg (by omega)]
      · rw [hslotB, List.length_cons, Nat.add_sub_cancel]
        conv_rhs => rw [if_pos (show V.length ≤ k + (rest.length + 1) by omega)]
        by_cases h3 : 0 < rest.length
        · rw [if_pos (by omega)]
          conv_rhs => rw [show rest.length = (rest.length - 1) + 1 by omega]
          rw [List.getElem?_cons_succ]
        · rw [if_neg (by omega), hVset _, if_pos (by omega),
            show rest.length = 0 by omega, List.getElem?_cons_zero]
          rfl

lemma hide_length (ps : PoolState) :
    (hide_debug_geometry ps).vectors.length = ps.vectors.length := by
  simp [hide_debug_geometry]

lemma process_hidden_visibility (cmds : List Command) (V : List VectorContainer)
    (hall : ∀ c ∈ cmds, c.t = some "v")
    (hinv : ∀ vc ∈ V, vc.actor.visibility = false)
    (hmle : cmds.length ≤ V.length) (hpos : 0 < V.length) :
    ∃ ps2, process_commands ⟨V, 0⟩ cmds = Except.ok ps2 ∧
      ps2.vectors.length = V.length ∧
      ∀ j, j < V.length → ∃ s, ps2.vectors[j]? = some s ∧
        (s.actor.visibility = true ↔ j < cmds.length) := by
  obtain ⟨ps2, hrun, hlen, hcur, hA, hB⟩ := process_commands_char cmds V 0 hall hpos
  refine ⟨ps2, hrun, hlen, ?_⟩
  intro j hj
  by_cases hlast : j + 1 < V.length
  · rw [hA j hlast]
    by_cases hjm : j < cmds.length
    · rw [if_pos ⟨Nat.zero_le j, by omega⟩, Nat.sub_zero, List.getElem?_eq_getElem hjm]
      exact ⟨writtenSlot _, rfl, ⟨fun _ => hjm, fun _ => rfl⟩⟩
    · rw [if_neg (by omega), List.getElem?_eq_getElem hj]
      refine ⟨V[j], rfl, ?_⟩
      have hv := hinv V[j] (List.getElem_mem hj)
      exact ⟨fun h => absurd h (by rw [hv]; simp), fun h => absurd h hjm⟩
  · have hjeq : j = V.length - 1 := by omega
    subst hjeq
    rw [hB]
    by_cases hm2 : V.length ≤ 0 + cmds.length
    · rw [if_pos hm2, List.getElem?_eq_getElem (by omega : cmds.length - 1 < cmds.length)]
      exact ⟨writtenSlot _, rfl, ⟨fun _ => by omega, fun _ => rfl⟩⟩
    · rw [if_neg hm2, List.getElem?_eq_getElem (by omega : V.length - 1 < V.length)]
      refine ⟨V[V.length - 1], rfl, ?_⟩
      have hv := hinv V[V.length - 1] (List.getElem_mem (by omega))
      exact ⟨fun h => absurd h (by rw [hv]; simp), fun h => absurd h (by omega)⟩

/-- C6: `update_display` begins every frame with `hide_debug_geometry`,
which resets the pool cursor to 0 and marks every slot invisible;
consequently, running the frame's command loop with M <= capacity
`vector` commands over the hidden pool succeeds and leaves exactly the
first M slots visible — every slot not touched in the frame is
invisible, whatever the pool looked like before the frame. -/
theorem claim_C6_pool_reset :
    (∀ ps : PoolState, (hide_debug_geometry ps).current_vector = 0 ∧
      ∀ vc ∈ (hide_debug_geometry ps).vectors, vc.actor.visibility = false) ∧
    (∀ (ps : PoolState) (cmds : List Command),
      (∀ c ∈ cmds, c.t = some "v") → cmds.length ≤ ps.vectors.length →
      0 < ps.vectors.length →
      ∃ ps2, process_commands (hide_debug_geometry ps) cmds = Except.ok ps2 ∧
        ps2.vectors.length = ps.vectors.length ∧
        ∀ j, j < ps.vectors.length → ∃ s, ps2.vectors[j]? = some s ∧
          (s.actor.visibility = true ↔ j < cmds.length)) := by
  have hinvis : ∀ ps : PoolState, ∀ vc ∈ (hide_debug_geometry ps).vectors,
      vc.actor.visibility = false := by
    intro ps vc hvc
    simp only [hide_debug_geometry, List.mem_map] at hvc
    obtain ⟨vc0, -, rfl⟩ := hvc
    rfl
  refine ⟨fun ps => ⟨rfl, hinvis ps⟩, ?_⟩
  intro ps cmds hall hmle hpos
  obtain ⟨ps2, hrun, hlen, hslots⟩ :=
    process_hidden_visibility cmds (hide_debug_geometry ps).vectors hall
      (hinvis ps) (by rw [hide_length]; omega) (by rw [hide_length]; omega)
  refine ⟨ps2, hrun, by rw [hlen, hide_length], ?_⟩
  intro j hj
  obtain ⟨s, hs, hvis⟩ := hslots j (by rw [hide_length]; omega)
  exact ⟨s, hs, hvis⟩

noncomputable def cmdY1 : Command := ⟨some "v", none, some 1, none, none, none, none⟩

noncomputable def cmdY2 : Command := ⟨some "v", none, some 2, none, none, none, none⟩

noncomputable def poolCap1 : PoolState := ⟨[⟨⟨false, []⟩⟩], 0⟩

theorem claim_C6_pool_reset_witness :
    (∀ c ∈ [cmdY1], c.t = some "v") ∧
    [cmdY1].length ≤ initial_pool.vectors.length ∧
    0 < initial_pool.vectors.length ∧
    ∃ ps2, process_commands (hide_debug_geometry initial_pool) [cmdY1] = Except.ok ps2 ∧
      ps2.vectors.length = initial_pool.vectors.length ∧
      ∀ j, j < initial_pool.vectors.length → ∃ s, ps2.vectors[j]? = some s ∧
        (s.actor.visibility = true ↔ j < [cmdY1].length) := by
  have h1 : ∀ c ∈ [cmdY1], c.t = some "v" := by
    intro c hc
    rw [List.mem_singleton] at hc
    subst hc
    rfl
  have h2 : [cmdY1].length ≤ initial_pool.vectors.length := by
    show 1 ≤ (List.replicate 50 (⟨⟨false, []⟩⟩ : VectorContainer)).length
    rw [List.length_replicate]
    omega
  have h3 : 0 < initial_pool.vectors.length := by
    show 0 < (List.replicate 50 (⟨⟨false, []⟩⟩ : VectorContainer)).length
    rw [List.length_replicate]
    omega
  exact ⟨h1, h2, h3, claim_C6_pool_reset.2 initial_pool [cmdY1] h1 h2 h3⟩

lemma cmdTransform_y1 : cmdTransform cmdY1 = [TOp.scale 1 1 1, TOp.translate 0 0 0] := by
  show set_transform_from_vector ⟨0, 0, 0⟩ ⟨0, 1, 0⟩ = _
  rw [stfv_up1]

lemma cmdTransform_y2 : cmdTransform cmdY2 = [TOp.scale 1 2 1, TOp.translate 0 0 0] := by
  show set_transform_from_vector ⟨0, 0, 0⟩ ⟨0, 2, 0⟩ = _
  rw [stfv_up2]

/-- C7 counterexample: with a pool of capacity 1, the single slot holds the
first command's transform after one command, but processing an excess
second command (beyond capacity) overwrites that same slot with a
different transform — the excess command does not leave the
earlier-written slot unchanged, so it was not dropped. -/
theorem claim_C7_pool_overflow_cex :
    process_commands poolCap1 [cmdY1]
      = Except.ok ⟨[⟨⟨true, [TOp.scale 1 1 1, TOp.translate 0 0 0]⟩⟩], 0⟩ ∧
    process_commands poolCap1 [cmdY1, cmdY2]
      = Except.ok ⟨[⟨⟨true, [TOp.scale 1 2 1, TOp.translate 0 0 0]⟩⟩], 0⟩ ∧
    ([TOp.scale 1 2 1, TOp.translate 0 0 0] : VtkTransform)
      ≠ [TOp.scale 1 1 1, TOp.translate 0 0 0] := by
  have hws1 : writtenSlot cmdY1 = ⟨⟨true, [TOp.scale 1 1 1, TOp.translate 0 0 0]⟩⟩ := by
    unfold writtenSlot
    rw [cmdTransform_y1]
  have hws2 : writtenSlot cmdY2 = ⟨⟨true, [TOp.scale 1 2 1, TOp.translate 0 0 0]⟩⟩ := by
    unfold writtenSlot
    rw [cmdTransform_y2]
  have hp1 : process_command poolCap1 cmdY1 = Except.ok ⟨[writtenSlot cmdY1], 0⟩ := by
    rw [show poolCap1 = (⟨[⟨⟨false, []⟩⟩], 0⟩ : PoolState) from rfl,
      process_command_v _ 0 cmdY1 rfl (by decide)]
    rfl
  have hp2 : process_command (⟨[writtenSlot cmdY1], 0⟩ : PoolState) cmdY2
      = Except.ok ⟨[writtenSlot cmdY2], 0⟩ := by
    rw [process_command_v _ 0 cmdY2 rfl (by decide)]
    rfl
  refine ⟨?_, ?_, ?_⟩
  · rw [process_commands_cons, hp1]
    show process_commands ⟨[writtenSlot cmdY1], 0⟩ [] = _
    rw [hws1]
    rfl
  · rw [process_commands_cons, hp1]
    show process_commands ⟨[writtenSlot cmdY1], 0⟩ [cmdY2] = _
    rw [process_commands_cons, hp2]
    show process_commands ⟨[writtenSlot cmdY2], 0⟩ [] = _
    rw [hws2]
    rfl
  · intro hcontra
    simp only [List.cons.injEq, TOp.scale.injEq] at hcontra
    obtain ⟨⟨-, h2, -⟩, -⟩ := hcontra
    norm_num at h2

/-- C7 (amended): commands beyond the pool capacity are not dropped — once
the cursor reaches the last slot (index N-1) it stalls there, and each
excess command in the same frame rewrites that slot, the last one winning;
the slots below N-1 written by the first commands of the frame keep their
transforms and stay visible, and the pool never grows. -/
theorem claim_C7_pool_overflow_corrected :
    ∀ (ps : PoolState) (cmds : List Command),
      (∀ c ∈ cmds, c.t = some "v") → 0 < ps.vectors.length →
      ps.vectors.length < cmds.length →
      ∃ ps2, process_commands (hide_debug_geometry ps) cmds = Except.ok ps2 ∧
        ps2.vectors.length = ps.vectors.length ∧
        ps2.current_vector = ps.vectors.length - 1 ∧
        (∀ j, j + 1 < ps.vectors.length →
          ps2.vectors[j]? = (cmds[j]?).map writtenSlot) ∧
        ps2.vectors[ps.vectors.length - 1]?
          = (cmds[cmds.length - 1]?).map writtenSlot := by
  intro ps cmds hall hpos hover
  obtain ⟨ps2, hrun, hlen, hcur, hA, hB⟩ :=
    process_commands_char cmds (hide_debug_geometry ps).vectors 0 hall
      (by rw [hide_length]; omega)
  rw [hide_length] at hlen hcur hA hB
  refine ⟨ps2, hrun, hlen, ?_, ?_, ?_⟩
  · rw [hcur, min_eq_right (by omega)]
  · intro j hj
    rw [hA j hj, if_pos ⟨Nat.zero_le j, by omega⟩, Nat.sub_zero]
  · rw [hB, if_pos (by omega)]

theorem claim_C7_pool_overflow_corrected_witness :
    (∀ c ∈ [cmdY1, cmdY2], c.t = some "v") ∧
    0 < poolCap1.vectors.length ∧
    poolCap1.vectors.length < ([cmdY1, cmdY2] : List Command).length ∧
    ∃ ps2, process_commands (hide_debug_geometry poolCap1) [cmdY1, cmdY2] = Except.ok ps2 ∧
      ps2.vectors.length = poolCap1.vectors.length ∧
      ps2.current_vector = poolCap1.vectors.length - 1 ∧
      (∀ j, j + 1 < poolCap1.vectors.length →
        ps2.vectors[j]? = (([cmdY1, cmdY2] : List Command)[j]?).map writtenSlot) ∧
      ps2.vectors[poolCap1.vectors.length - 1]?
        = (([cmdY1, cmdY2] : List Command)[([cmdY1, cmdY2] : List Command).length - 1]?).map
          writtenSlot := by
  have h1 : ∀ c ∈ [cmdY1, cmdY2], c.t = some "v" := by
    intro c hc
    rcases List.mem_cons.mp hc with h | h
    · subst h
      rfl
    · rw [List.mem_singleton] at h
      subst h
      rfl
  exact ⟨h1, by decide, by decide,
    claim_C7_pool_overflow_corrected poolCap1 [cmdY1, cmdY2] h1 (by decide) (by decide)⟩

lemma apply_states_cons (g : Geometry) (lf : Bool) (st : ObjectState)
    (rest : List ObjectState) :
    apply_states g lf (st :: rest)
      = match apply_state g lf st with
        | Except.error e => Except.error e
        | Except.ok g2 => apply_states g2 lf rest := rfl

lemma apply_state_no_id (g : Geometry) (lf : Bool) (st : ObjectState)
    (hid : st.id = none) : apply_state g lf st = Except.error "KeyError" := by
  unfold apply_state
  simp only [hid]

lemma apply_state_unknown_id (g : Geometry) (lf : Bool) (st : ObjectState) (j : ℤ)
    (hid : st.id = some j) (hg : g j = none) :
    apply_state g lf st = Except.error "KeyError" := by
  unfold apply_state
  simp only [hid, hg]

lemma apply_state_no_p (g : Geometry) (lf : Bool) (st : ObjectState) (j : ℤ)
    (cont : ActorContainer) (hid : st.id = some j) (hg : g j = some cont)
    (hp : st.p = none) : apply_state g lf st = Except.error "KeyError" := by
  unfold apply_state
  simp only [hid, hg, hp]

lemma apply_state_no_r (g : Geometry) (lf : Bool) (st : ObjectState) (j : ℤ)
    (cont : ActorContainer) (pos : Vec3) (hid : st.id = some j)
    (hg : g j = some cont) (hp : st.p = some pos) (hr : st.r = none) :
    apply_state g lf st = Except.error "KeyError" := by
  unfold apply_state
  simp only [hid, hg, hp, hr]

lemma apply_state_no_i (g : Geometry) (lf : Bool) (st : ObjectState) (j : ℤ)
    (cont : ActorContainer) (pos : Vec3) (rot : Quat) (hid : st.id = some j)
    (hg : g j = some cont) (hp : st.p = some pos) (hr : st.r = some rot)
    (hi : st.i = none) : apply_state g lf st = Except.error "KeyError" := by
  unfold apply_state
  simp only [hid, hg, hp, hr, hi]

lemma apply_state_no_m (g : Geometry) (lf : Bool) (st : ObjectState) (j : ℤ)
    (cont : ActorContainer) (pos : Vec3) (rot : Quat) (fl : String)
    (hid : st.id = some j) (hg : g j = some cont) (hp : st.p = some pos)
    (hr : st.r = some rot) (hi : st.i = some fl) (hm : st.m = none) :
    apply_state g lf st = Except.error "KeyError" := by
  unfold apply_state
  simp only [hid, hg, hp, hr, hi, hm]

lemma apply_state_ok (g : Geometry) (lf : Bool) (st : ObjectState) (j : ℤ)
    (cont : ActorContainer) (pos : Vec3) (rot : Quat) (fl md : String)
    (tr : VtkTransform)
    (hid : st.id = some j) (hg : g j = some cont) (hp : st.p = some pos)
    (hr : st.r = some rot) (hi : st.i = some fl) (hm : st.m = some md)
    (htr : set_transform pos rot = Except.ok tr) :
    apply_state g lf st = Except.ok (Function.update g j (some
      { cont with
        position := pos
        rotation := rot
        metadata := md
        actor :=
          { visibility := if lf then false else fl == "i"
            userTransform := tr } })) := by
  unfold apply_state
  simp only [hid, hg, hp, hr, hi, hm, htr]

lemma apply_state_inv (g : Geometry) (lf : Bool) (st : ObjectState) (g2 : Geometry)
    (hok : apply_state g lf st = Except.ok g2) :
    ∃ j cont pos rot fl md tr, st.id = some j ∧ g j = some cont ∧ st.p = some pos ∧
      st.r = some rot ∧ st.i = some fl ∧ st.m = some md ∧
      set_transform pos rot = Except.ok tr ∧
      g2 = Function.update g j (some
        { cont with
          position := pos
          rotation := rot
          metadata := md
          actor :=
            { visibility := if lf then false else fl == "i"
              userTransform := tr } }) := by
  unfold apply_state at hok
  cases hid : st.id with
  | none =>
    simp only [hid] at hok
    exact (Except.noConfusion hok)
  | some j =>
    simp only [hid] at hok
    cases hg : g j with
    | none =>
      simp only [hg] at hok
      exact (Except.noConfusion hok)
    | some cont =>
      simp only [hg] at hok
      cases hp : st.p with
      | none =>
        simp only [hp] at hok
        exact (Except.noConfusion hok)
      | some pos =>
        simp only [hp] at hok
        cases hr : st.r with
        | none =>
          simp only [hr] at hok
          exact (Except.noConfusion hok)
        | some rot =>
          simp only [hr] at hok
          cases hi : st.i with
          | none =>
            simp only [hi] at hok
            exact (Except.noConfusion hok)
          | some fl =>
            simp only [hi] at hok
            cases hm : st.m with
            | none =>
              simp only [hm] at hok
              exact (Except.noConfusion hok)
            | some md =>
              simp only [hm] at hok
              cases htr : set_transform pos rot with
              | error e =>
                rw [htr] at hok
                exact (Except.noConfusion hok)
              | ok tr =>
                simp only [htr] at hok
                injection hok with h
                exact ⟨j, cont, pos, rot, fl, md, tr, rfl, hg, rfl, rfl, rfl, rfl,
                  htr, h.symm⟩

lemma apply_states_untouched (lf : Bool) :
    ∀ (sts : List ObjectState) (g g2 : Geometry) (i : ℤ),
      apply_states g lf sts = Except.ok g2 →
      (∀ st ∈ sts, st.id ≠ some i) → g2 i = g i := by
  intro sts
  induction sts with
  | nil =>
    intro g g2 i hok hall
    injection hok with h
    rw [← h]
  | cons st rest ih =>
    intro g g2 i hok hall
    rw [apply_states_cons] at hok
    cases hstep : apply_state g lf st with
    | error e =>
      rw [hstep] at hok
      exact (Except.noConfusion hok)
    | ok g1 =>
      simp only [hstep] at hok
      have hg1 : g1 i = g i := by
        obtain ⟨j, cont, pos, rot, fl, md, tr, hid, -, -, -, -, -, -, hq⟩ :=
          apply_state_inv g lf st g1 hstep
        have hij : i ≠ j := by
          intro hcontra
          exact hall st (List.mem_cons_self st rest) (by rw [hid, hcontra])
        rw [hq]
        exact Function.update_noteq hij _ _
      rw [ih g1 g2 i hok (fun st2 h2 => hall st2 (List.mem_cons_of_mem st h2)), hg1]

lemma apply_states_lastframe (sts : List ObjectState) :
    ∀ (g g2 : Geometry) (i : ℤ),
      apply_states g true sts = Except.ok g2 →
      (∃ st ∈ sts, st.id = some i) →
      ∃ c, g2 i = some c ∧ c.actor.visibility = false := by
  induction sts with
  | nil =>
    intro g g2 i hok hex
    obtain ⟨st, hst, -⟩ := hex
    exact absurd hst (List.not_mem_nil st)
  | cons st rest ih =>
    intro g g2 i hok hex
    rw [apply_states_cons] at hok
    cases hstep : apply_state g true st with
    | error e =>
      rw [hstep] at hok
      exact (Except.noConfusion hok)
    | ok g1 =>
      simp only [hstep] at hok
      by_cases hrest : ∃ st2 ∈ rest, st2.id = some i
      · exact ih g1 g2 i hok hrest
      · obtain ⟨st0, hst0, hid0⟩ := hex
        have hst0eq : st0 = st := by
          rcases List.mem_cons.mp hst0 with h | h
          · exact h
          · exact absurd ⟨st0, h, hid0⟩ hrest
        subst hst0eq
        obtain ⟨j, cont, pos, rot, fl, md, tr, hid, -, -, -, -, -, -, hq⟩ :=
          apply_state_inv g true st0 g1 hstep
        have hji : j = i := by
          rw [hid0] at hid
          injection hid with h
          exact h.symm
        subst hji
        push_neg at hrest
        have hg2i : g2 j = g1 j := apply_states_untouched true rest g1 g2 j hok hrest
        rw [hg2i, hq, Function.update_same]
        exact ⟨_, rfl, rfl⟩

noncomputable def actor0 : Actor := ⟨false, []⟩

noncomputable def cont7 : ActorContainer := ⟨7, "box", ⟨0, 0, 0⟩, ⟨0, 0, 0, 1⟩, "", actor0⟩

noncomputable def geo7 : Geometry := fun j => if j = 7 then some cont7 else none

noncomputable def stFull7 : ObjectState :=
  ⟨some 7, some ⟨0, 0, 0⟩, some ⟨0, 0, 0, 1⟩, some "i", some ""⟩

noncomputable def stNoP : ObjectState :=
  ⟨some 7, none, some ⟨0, 0, 0, 1⟩, some "i", some ""⟩

/-- C5 counterexample: a state whose id has no matching object descriptor
is not silently dropped — applying the frame's states raises `KeyError`
(so the loop is not total); likewise a state missing its `p` field raises
instead of defaulting to the origin. -/
theorem claim_C5_state_defaults_cex :
    apply_states (fun _ => none) false [stFull7] = Except.error "KeyError" ∧
    apply_states geo7 false [stNoP] = Except.error "KeyError" := by
  constructor
  · rw [apply_states_cons,
      apply_state_unknown_id (fun _ => none) false stFull7 7 rfl rfl]
  · rw [apply_states_cons, apply_state_no_p geo7 false stNoP 7 cont7 rfl rfl rfl]

/-- C5 (amended): the state loop of `update_display` performs no
defaulting and no silent drop — a state with a missing `id`, `p`, `r`,
`i` or `m` field, or whose id references no known object, makes it raise
`KeyError`; only when every field is present, the id is known and the
transform decomposition succeeds does it update the object's container
(storing position, rotation, metadata, the computed transform, and the
visibility derived from the `i` flag and the last-frame override).  By
contrast, a vector command's direction/origin fields are defaulted via
`.get` (direction (0,1,0), origin (0,0,0)) and never raise, and a frame's
missing `states`/`cmd` keys default to empty lists, so `update_display`
succeeds on such a frame. -/
theorem claim_C5_state_defaults_corrected :
    (∀ (g : Geometry) (lf : Bool) (st : ObjectState), st.id = none →
      apply_state g lf st = Except.error "KeyError") ∧
    (∀ (g : Geometry) (lf : Bool) (st : ObjectState) (j : ℤ),
      st.id = some j → g j = none →
      apply_state g lf st = Except.error "KeyError") ∧
    (∀ (g : Geometry) (lf : Bool) (st : ObjectState) (j : ℤ) (cont : ActorContainer),
      st.id = some j → g j = some cont → st.p = none →
      apply_state g lf st = Except.error "KeyError") ∧
    (∀ (g : Geometry) (lf : Bool) (st : ObjectState) (j : ℤ) (cont : ActorContainer)
      (pos : Vec3), st.id = some j → g j = some cont → st.p = some pos →
      st.r = none → apply_state g lf st = Except.error "KeyError") ∧
    (∀ (g : Geometry) (lf : Bool) (st : ObjectState) (j : ℤ) (cont : ActorContainer)
      (pos : Vec3) (rot : Quat), st.id = some j → g j = some cont →
      st.p = some pos → st.r = some rot → st.i = none →
      apply_state g lf st = Except.error "KeyError") ∧
    (∀ (g : Geometry) (lf : Bool) (st : ObjectState) (j : ℤ) (cont : ActorContainer)
      (pos : Vec3) (rot : Quat) (fl : String), st.id = some j → g j = some cont →
      st.p = some pos → st.r = some rot → st.i = some fl → st.m = none →
      apply_state g lf st = Except.error "KeyError") ∧
    (∀ (g : Geometry) (lf : Bool) (st : ObjectState) (j : ℤ) (cont : ActorContainer)
      (pos : Vec3) (rot : Quat) (fl md : String) (tr : VtkTransform),
      st.id = some j → g j = some cont → st.p = some pos → st.r = some rot →
      st.i = some fl → st.m = some md → set_transform pos rot = Except.ok tr →
      apply_state g lf st = Except.ok (Function.update g j (some
        { cont with
          position := pos
          rotation := rot
          metadata := md
          actor :=
            { visibility := if lf then false else fl == "i"
              userTransform := tr } }))) ∧
    (∀ c : Command, cmdTransform c = set_transform_from_vector
      ⟨c.ox.getD 0, c.oy.getD 0, c.oz.getD 0⟩
      ⟨c.vx.getD 0, c.vy.getD 1, c.vz.getD 0⟩) ∧
    (∀ (ps : PoolState) (c : Command), c.t = some "v" →
      ps.current_vector < ps.vectors.length →
      ∃ ps3, process_command ps c = Except.ok ps3) ∧
    (∀ (β : Type) (p : ReplayPlayer Frame β) (g : Geometry) (ps : PoolState)
      (f : Frame), get_current_frame_data p = Except.ok (some f) →
      frame_truthy f → f.states = none → f.cmd = none →
      update_display p g ps = Except.ok (g, hide_debug_geometry ps)) := by
  refine ⟨apply_state_no_id, apply_state_unknown_id, apply_state_no_p,
    apply_state_no_r, apply_state_no_i, apply_state_no_m, apply_state_ok,
    fun c => rfl, ?_, ?_⟩
  · intro ps c hc hk
    exact ⟨_, process_command_v ps.vectors ps.current_vector c hc hk⟩
  · intro β p g ps f hframe htruthy hstates hcmd
    unfold update_display
    simp only [hframe]
    rw [if_pos htruthy, hstates, hcmd]
    rfl

noncomputable def stNoR : ObjectState := ⟨some 7, some ⟨0, 0, 0⟩, none, some "i", some ""⟩

noncomputable def cmdBare : Command := ⟨some "v", none, none, none, none, none, none⟩

noncomputable def framet : Frame := ⟨some 0, none, none⟩

noncomputable def playert : ReplayPlayer Frame ℕ := ⟨[framet], [], 0, 1, false, 1, 1⟩

theorem claim_C5_state_defaults_corrected_witness :
    (stFull7.id = some 7 ∧ (fun _ => (none : Option ActorContainer)) 7 = none ∧
      apply_state (fun _ => none) false stFull7 = Except.error "KeyError") ∧
    (stNoR.r = none ∧ apply_state geo7 false stNoR = Except.error "KeyError") ∧
    (geo7 7 = some cont7 ∧
      apply_state geo7 false stFull7 = Except.ok (Function.update geo7 7 (some
        { cont7 with
          position := ⟨0, 0, 0⟩
          rotation := ⟨0, 0, 0, 1⟩
          metadata := ""
          actor :=
            { visibility := if false then false else "i" == "i"
              userTransform := [TOp.translate 0 0 0] } }))) ∧
    (cmdBare.t = some "v" ∧ poolCap1.current_vector < poolCap1.vectors.length ∧
      ∃ ps3, process_command poolCap1 cmdBare = Except.ok ps3) ∧
    (get_current_frame_data playert = Except.ok (some framet) ∧
      frame_truthy framet ∧
      update_display playert geo7 poolCap1
        = Except.ok (geo7, hide_debug_geometry poolCap1)) := by
  have htruthy : frame_truthy framet := Or.inl (by
    rw [show framet.t = some 0 from rfl]
    simp)
  refine ⟨⟨rfl, rfl, ?_⟩, ⟨rfl, ?_⟩, ⟨rfl, ?_⟩, ⟨rfl, by decide, ?_⟩,
    ⟨rfl, htruthy, ?_⟩⟩
  · exact claim_C5_state_defaults_corrected.2.1 (fun _ => none) false stFull7 7 rfl rfl
  · exact claim_C5_state_defaults_corrected.2.2.2.1 geo7 false stNoR 7 cont7
      ⟨0, 0, 0⟩ rfl rfl rfl rfl
  · exact claim_C5_state_defaults_corrected.2.2.2.2.2.2.1 geo7 false stFull7 7 cont7
      ⟨0, 0, 0⟩ ⟨0, 0, 0, 1⟩ "i" "" [TOp.translate 0 0 0]
      rfl rfl rfl rfl rfl rfl (set_transform_id ⟨0, 0, 0⟩)
  · exact claim_C5_state_defaults_corrected.2.2.2.2.2.2.2.2.1 poolCap1 cmdBare
      rfl (by decide)
  · exact claim_C5_state_defaults_corrected.2.2.2.2.2.2.2.2.2 ℕ playert geo7
      poolCap1 framet rfl htruthy rfl rfl

/-- C10: whenever the playback cursor is on the last frame
(`current_frame = frame_count - 1`), a successful `update_display` leaves
every object whose state appears in that frame invisible, overriding the
state's recorded visibility flag. -/
theorem claim_C10_last_frame_invisible :
    ∀ (β : Type) (p : ReplayPlayer Frame β) (g : Geometry) (ps : PoolState)
      (g2 : Geometry) (ps2 : PoolState) (f : Frame) (i : ℤ),
      update_display p g ps = Except.ok (g2, ps2) →
      get_current_frame_data p = Except.ok (some f) →
      p.current_frame = (p.frames.length : ℤ) - 1 →
      (∃ st ∈ f.states.getD [], st.id = some i) →
      ∃ c, g2 i = some c ∧ c.actor.visibility = false := by
  intro β p g ps g2 ps2 f i hupd hframe hlast hex
  unfold update_display at hupd
  simp only [hframe] at hupd
  by_cases htruthy : frame_truthy f
  · rw [if_pos htruthy] at hupd
    rw [decide_eq_true hlast] at hupd
    cases hst : apply_states g true (f.states.getD []) with
    | error e =>
      rw [hst] at hupd
      exact (Except.noConfusion hupd)
    | ok g3 =>
      simp only [hst] at hupd
      cases hcmd : process_commands (hide_debug_geometry ps) (f.cmd.getD []) with
      | error e =>
        rw [hcmd] at hupd
        exact (Except.noConfusion hupd)
      | ok ps3 =>
        simp only [hcmd] at hupd
        injection hupd with h
        rw [Prod.mk.injEq] at h
        obtain ⟨hg, -⟩ := h
        subst hg
        exact apply_states_lastframe (f.states.getD []) g g3 i hst hex
  · rw [if_neg htruthy] at hupd
    have hsn : f.states = none := by
      by_contra hcontra
      exact htruthy (Or.inr (Or.inl hcontra))
    rw [hsn] at hex
    obtain ⟨st, hst, -⟩ := hex
    exact absurd hst (List.not_mem_nil st)

noncomputable def framew : Frame := ⟨some 0, some [stFull7], none⟩

noncomputable def playerw : ReplayPlayer Frame ℕ := ⟨[framew], [], 0, 1, false, 1, 1⟩

noncomputable def cont7last : ActorContainer :=
  { cont7 with
    position := ⟨0, 0, 0⟩
    rotation := ⟨0, 0, 0, 1⟩
    metadata := ""
    actor :=
      { visibility := false
        userTransform := [TOp.translate 0 0 0] } }

noncomputable def geo2w : Geometry := Function.update geo7 7 (some cont7last)

theorem claim_C10_last_frame_invisible_witness :
    update_display playerw geo7 (⟨[], 0⟩ : PoolState) = Except.ok (geo2w, ⟨[], 0⟩) ∧
    get_current_frame_data playerw = Except.ok (some framew) ∧
    playerw.current_frame = (playerw.frames.length : ℤ) - 1 ∧
    (∃ st ∈ framew.states.getD [], st.id = some 7) ∧
    (∃ c, geo2w 7 = some c ∧ c.actor.visibility = false) := by
  have hframe : get_current_frame_data playerw = Except.ok (some framew) := rfl
  have hlast : playerw.current_frame = (playerw.frames.length : ℤ) - 1 := by
    show (0 : ℤ) = ((List.length [framew] : ℕ) : ℤ) - 1
    rw [List.length_singleton]
    norm_num
  have hex : ∃ st ∈ framew.states.getD [], st.id = some 7 := by
    refine ⟨stFull7, ?_, rfl⟩
    rw [show framew.states = some [stFull7] from rfl, Option.getD_some]
    exact List.mem_singleton_self _
  have hstep : apply_state geo7 true stFull7
      = Except.ok (Function.update geo7 7 (some cont7last)) := by
    rw [apply_state_ok geo7 true stFull7 7 cont7 ⟨0, 0, 0⟩ ⟨0, 0, 0, 1⟩ "i" ""
      [TOp.translate 0 0 0] rfl rfl rfl rfl rfl rfl (set_transform_id ⟨0, 0, 0⟩)]
    rfl
  have hsts : apply_states geo7 true [stFull7]
      = Except.ok (Function.update geo7 7 (some cont7last)) := by
    rw [apply_states_cons]
    simp only [hstep]
    rfl
  have hupd : update_display playerw geo7 (⟨[], 0⟩ : PoolState)
      = Except.ok (geo2w, ⟨[], 0⟩) := by
    unfold update_display
    simp only [hframe]
    rw [if_pos (show frame_truthy framew from Or.inl (by
      rw [show framew.t = some 0 from rfl]
      simp))]
    rw [decide_eq_true hlast]
    rw [show framew.states = some [stFull7] from rfl,
      show framew.cmd = (none : Option (List Command)) from rfl,
      Option.getD_some, Option.getD_none]
    simp only [hsts]
    rfl
  exact ⟨hupd, hframe, hlast, hex,
    claim_C10_last_frame_invisible ℕ playerw geo7 ⟨[], 0⟩ geo2w ⟨[], 0⟩ framew 7
      hupd hframe hlast hex⟩
